import Mathlib

/-!
Verification of the PyWebTranslator core -- shallow embedding of the DeepL
translation-service session (`src/pywebtranslator/services/deepl.py`,
`src/pywebtranslator/services/translationservice.py`), its polling waits
(`src/pywebtranslator/expectations/expectations.py`) and the session pool
(`src/pywebtranslator/threading.py`), together with theorems settling the
specified behaviour against these embeddings.
-/

namespace PyWebTranslator

/-- Language ids, e.g. `"en"`, `"de"` (keys of the `_supported_langs` dict). -/
abbrev Lang := String

/-- Errors the embedded code can raise.
`badSourceLanguage` models `ValueError("Source language not supported!")`,
`badTargetLanguage` models `ValueError("Target language not supported!")`,
`timeoutException` models selenium's `TimeoutException`. -/
inductive PyErr where
  | badSourceLanguage
  | badTargetLanguage
  | timeoutException
deriving DecidableEq, Repr

/-- CSS selectors used by the DeepL service, modelled as opaque identifiers
(the literal selector strings are site-specific constants).
`langOption l` models `button[dl-test=translator-lang-option-{l}]`;
`langOptionVariant l v` models `button[dl-test=translator-lang-option-{l}-{v}]`. -/
inductive Selector where
  | srcLangListBtn
  | tgtLangListBtn
  | switchLangDiv
  | langOption (lang : String)
  | langOptionVariant (lang variant : String)
deriving DecidableEq, Repr

/-- Observable operations performed on the automation handle (browser). -/
inductive Action where
  | click (sel : Selector)
  | sendKeys (text : String)
  | clear
deriving DecidableEq, Repr

/-- Session state of a `TranslationService`: the keys of `_supported_langs`,
`_current_src_lang` and `_current_tgt_lang`. -/
structure DeepLState where
  supportedLangs : List Lang
  currentSrcLang : Lang
  currentTgtLang : Lang
deriving DecidableEq, Repr

/-- Models `TranslationService.is_language_supported`:
`language is not None and language in self._supported_langs.keys()`. -/
def is_language_supported (st : DeepLState) : Option Lang → Bool
  | none => false
  | some l => st.supportedLangs.contains l

/-- Result of a stateful UI method: the actions performed on the handle (in
order), the session state when the method returns or raises, and the raised
error, if any. -/
structure Eff where
  log : List Action
  st : DeepLState
  err : Option PyErr
deriving DecidableEq, Repr

/-- The UI environment: which selectors `search_css` finds within its wait
(an absent selector makes `search_css` raise `TimeoutException`). -/
abbrev UI := Selector → Bool

/-- Python's `str.lower()` on language ids (per-character lowering). -/
def pyLower (s : String) : String := ⟨s.data.map Char.toLower⟩

/-- Python's `str.upper()` on language ids (per-character uppering). -/
def pyUpper (s : String) : String := ⟨s.data.map Char.toUpper⟩

/-- Models `DeepL._set_source_language`. Validates, skips if already selected,
otherwise opens the source-language list and clicks the option. -/
def setSourceLanguage (ui : UI) (st : DeepLState) (src_lang : Option Lang) : Eff :=
  if ¬ is_language_supported st src_lang then ⟨[], st, some .badSourceLanguage⟩
  else if src_lang = some st.currentSrcLang then ⟨[], st, none⟩
  else if ¬ ui .srcLangListBtn then ⟨[], st, some .timeoutException⟩
  else
    let l : Lang := src_lang.getD ""
    if ui (.langOption (pyLower l)) then
      ⟨[.click .srcLangListBtn, .click (.langOption (pyLower l))],
        { st with currentSrcLang := l }, none⟩
    else ⟨[.click .srcLangListBtn], st, some .timeoutException⟩

/-- Models `DeepL._set_target_language`. Validates, skips if already selected or equal
to the current source language; for `en` tries the `en-US` dialect option first
and falls back to `en-EN` on a `TimeoutException`; any other language gets the
single `{lang}-{LANG}` option with no fallback. The state update
`_current_tgt_lang = tgt_lang` happens only after a successful click. -/
def setTargetLanguage (ui : UI) (st : DeepLState) (tgt_lang : Option Lang) : Eff :=
  if ¬ is_language_supported st tgt_lang then ⟨[], st, some .badTargetLanguage⟩
  else if tgt_lang = some st.currentTgtLang then ⟨[], st, none⟩
  else if tgt_lang = some st.currentSrcLang then ⟨[], st, none⟩
  else if ¬ ui .tgtLangListBtn then ⟨[], st, some .timeoutException⟩
  else
    let t : Lang := tgt_lang.getD ""
    if t = "en" then
      if ui (.langOptionVariant (pyLower t) "US") then
        ⟨[.click .tgtLangListBtn, .click (.langOptionVariant (pyLower t) "US")],
          { st with currentTgtLang := t }, none⟩
      else if ui (.langOptionVariant (pyLower t) (pyUpper t)) then
        ⟨[.click .tgtLangListBtn, .click (.langOptionVariant (pyLower t) (pyUpper t))],
          { st with currentTgtLang := t }, none⟩
      else ⟨[.click .tgtLangListBtn], st, some .timeoutException⟩
    else
      if ui (.langOptionVariant (pyLower t) (pyUpper t)) then
        ⟨[.click .tgtLangListBtn, .click (.langOptionVariant (pyLower t) (pyUpper t))],
          { st with currentTgtLang := t }, none⟩
      else ⟨[.click .tgtLangListBtn], st, some .timeoutException⟩

/-- Models `DeepL._switch_languages`: click the switch control, then exchange
`_current_src_lang` and `_current_tgt_lang`. -/
def switchLanguages (ui : UI) (st : DeepLState) : Eff :=
  if ui .switchLangDiv then
    ⟨[.click .switchLangDiv],
      { st with currentSrcLang := st.currentTgtLang, currentTgtLang := st.currentSrcLang },
      none⟩
  else ⟨[], st, some .timeoutException⟩

/-- Models `DeepL._set_languages`. Validates both languages up front, then takes the
switch path when `src_lang == self._current_src_lang and
tgt_lang == self._current_src_lang` (sic: the code compares both arguments
against `_current_src_lang`), else `_set_source_language` followed by
`_set_target_language`, the latter only when the former did not raise. -/
def setLanguages (ui : UI) (st : DeepLState) (src_lang tgt_lang : Option Lang) : Eff :=
  if ¬ is_language_supported st src_lang then ⟨[], st, some .badSourceLanguage⟩
  else if ¬ is_language_supported st tgt_lang then ⟨[], st, some .badTargetLanguage⟩
  else if src_lang = some st.currentSrcLang ∧ tgt_lang = some st.currentSrcLang then
    switchLanguages ui st
  else
    let r1 := setSourceLanguage ui st src_lang
    match r1.err with
    | some _ => r1
    | none =>
      let r2 := setTargetLanguage ui r1.st tgt_lang
      ⟨r1.log ++ r2.log, r2.st, r2.err⟩

/-- Whether `needle` occurs as a contiguous sublist of `hay`. -/
def isInfixList (needle : List Char) : List Char → Bool
  | [] => needle.isEmpty
  | c :: rest => needle.isPrefixOf (c :: rest) || isInfixList needle rest

/-- Substring containment, modelling Python's `needle in hay` on strings. -/
def containsSubstr (hay needle : String) : Bool :=
  isInfixList needle.data hay.data

/-- The `TextNotPresent` expectation (`expectations.py`): true on a textarea
value iff the given text is not contained in it. -/
def TextNotPresent (text value : String) : Bool :=
  !(containsSubstr value text)

/-- The `TextNotPresentAndLongerThan` expectation (`expectations.py`): true on
a textarea value iff the given text is not contained in it and the value has at
least the given length. -/
def TextNotPresentAndLongerThan (text : String) (limit : Nat) (value : String) : Bool :=
  !(containsSubstr value text) && decide (limit ≤ value.length)

/-- Values of the target textarea's `value` attribute over discrete poll
steps, abstracting the page's asynchronous updates. -/
abbrev Trace := Nat → String

/-- Bounded polling: the first step in `[start, start + fuel)` at which the
predicate holds on the trace, else `none`. -/
def waitUntilAux (p : String → Bool) (trace : Trace) : Nat → Nat → Option Nat
  | _, 0 => none
  | start, fuel + 1 =>
    if p (trace start) then some start else waitUntilAux p trace (start + 1) fuel

/-- Models `WebDriverWait(driver, timeout).until(expectation)`: polls the predicate
from `start` up to the deadline (`timeout` further steps); `none` models the
raised `TimeoutException`. -/
def waitUntil (p : String → Bool) (trace : Trace) (start timeout : Nat) : Option Nat :=
  waitUntilAux p trace start (timeout + 1)

/-- The placeholder marker DeepL shows while a translation is loading. -/
def PLACEHOLDER : String := "[...]"

/-- First half of `DeepL._get_translation`: the step at which the stale
pre-submission content is gone. If the submitted text is contained in the
target textarea at `t0`, wait under `TextNotPresent`; otherwise this wait is
skipped and the clearance step is `t0` itself. -/
def staleClearTime (trace : Trace) (timeout t0 : Nat) (from_text : String) : Option Nat :=
  if containsSubstr (trace t0) from_text then
    waitUntil (fun v => TextNotPresent from_text v) trace t0 timeout
  else some t0

/-- Second half of `DeepL._get_translation`: after stale clearance, the step
at which `TextNotPresentAndLongerThan(tgt_textarea, PLACEHOLDER, 2)` first
holds; `none` models a `TimeoutException` from either wait. -/
def readyTime (trace : Trace) (timeout t0 : Nat) (from_text : String) : Option Nat :=
  match staleClearTime trace timeout t0 from_text with
  | none => none
  | some t1 => waitUntil (fun v => TextNotPresentAndLongerThan PLACEHOLDER 2 v) trace t1 timeout

/-- Models `DeepL._get_translation`: run both waits, then read the target textarea. -/
def getTranslation (trace : Trace) (timeout t0 : Nat) (from_text : String) :
    Except PyErr String :=
  match readyTime trace timeout t0 from_text with
  | none => .error .timeoutException
  | some t2 => .ok (trace t2)

/-- Result of `TranslationService.translate`: actions performed on the
automation handle, session state on return or raise, and the returned string
or raised error. -/
structure TransEff where
  log : List Action
  st : DeepLState
  result : Except PyErr String
deriving Repr

/-- Models `TranslationService.translate` (`services/translationservice.py`): return
texts of length ≤ 1 unchanged; otherwise `_set_languages` (whose exceptions
propagate), `send_keys(text)`, then `_get_translation(text)`, whose
`TimeoutException` is caught and turned into the empty string. On success
`_get_translation` also clears the source textarea. -/
def translate (ui : UI) (trace : Trace) (timeout t0 : Nat) (st : DeepLState)
    (text : String) (source_language target_language : Option Lang) : TransEff :=
  if text.length ≤ 1 then ⟨[], st, .ok text⟩
  else
    match (setLanguages ui st source_language target_language).err with
    | some e =>
      ⟨(setLanguages ui st source_language target_language).log,
        (setLanguages ui st source_language target_language).st, .error e⟩
    | none =>
      match readyTime trace timeout t0 text with
      | none =>
        ⟨(setLanguages ui st source_language target_language).log ++ [.sendKeys text],
          (setLanguages ui st source_language target_language).st, .ok ""⟩
      | some t2 =>
        ⟨(setLanguages ui st source_language target_language).log
            ++ [.sendKeys text, .clear],
          (setLanguages ui st source_language target_language).st, .ok (trace t2)⟩

/-! ### Session pool (`src/pywebtranslator/threading.py`)

`TranslationServicePool` declares `__pool` and `__services` in the class body
and only ever mutates them in place (`append` / `pop`), never rebinds them on
an instance, so in Python they are a single process-wide pair of lists shared
by every pool instance. The embedding therefore separates the instance record
(the attributes assigned in `__init__`) from `PoolClassState`, the shared
class-level state, and every method takes both. -/

/-- Instance attributes of `TranslationServicePool.__init__`; the service and
browser classes are abstracted to configuration tokens. -/
structure TranslationServicePool where
  serviceType : Nat
  browserType : Nat
  timeoutThreshold : Nat
  isHeadless : Bool
deriving DecidableEq, Repr

/-- A `TranslationService` created by the pool: an identity plus the
configuration it was constructed from
(`self.service_type(self.browser_type(is_headless=...), self.timeout_threshold)`). -/
structure TService where
  sid : Nat
  serviceType : Nat
  browserType : Nat
  isHeadless : Bool
deriving DecidableEq, Repr

instance : Inhabited TService := ⟨⟨0, 0, 0, false⟩⟩

/-- The class-level attributes `__pool` (available services) and `__services`
(every service ever created), shared process-wide. -/
structure PoolClassState where
  pool : List TService
  services : List TService
deriving DecidableEq, Repr

/-- The service object `TranslationServicePool.__create` builds from the
instance's configuration; `sid` is the fresh identity of the new object. -/
def createService (inst : TranslationServicePool) (sid : Nat) : TService :=
  ⟨sid, inst.serviceType, inst.browserType, inst.isHeadless⟩

/-- Models `TranslationServicePool.__create`: append the new service to `__services`
and to `__pool`. -/
def poolCreate (inst : TranslationServicePool) (cs : PoolClassState) (sid : Nat) :
    PoolClassState :=
  ⟨cs.pool ++ [createService inst sid], cs.services ++ [createService inst sid]⟩

/-- Models `TranslationServicePool.claim`: create a service if `len(__pool) <= 0`,
then `__pool.pop()` (removes and returns the last element). -/
def poolClaim (inst : TranslationServicePool) (cs : PoolClassState) (sid : Nat) :
    TService × PoolClassState :=
  let cs1 := if cs.pool.length ≤ 0 then poolCreate inst cs sid else cs
  (cs1.pool.getLastD default, ⟨cs1.pool.dropLast, cs1.services⟩)

/-- Models `TranslationServicePool.stash`: `__pool.append(service)`. -/
def poolStash (_inst : TranslationServicePool) (cs : PoolClassState)
    (service : TService) : PoolClassState :=
  ⟨cs.pool ++ [service], cs.services⟩

/-- Models `TranslationServicePool.translate`: claim a service, call its `translate`
(abstracted by `beh`, which returns the translation or the raised exception),
stash it back, return the translation. There is no `try`/`finally`: when
`beh` raises, control leaves the method before `stash` runs. -/
def poolTranslate (inst : TranslationServicePool) (beh : TService → Except PyErr String)
    (cs : PoolClassState) (sid : Nat) : Except PyErr String × PoolClassState :=
  let claimed := poolClaim inst cs sid
  match beh claimed.1 with
  | .error e => (.error e, claimed.2)
  | .ok tr => (.ok tr, poolStash inst claimed.2 claimed.1)

/-- Models `TranslationServicePool.quit`: the services `quit()` is invoked on --
every member of `__services`, not only those currently in `__pool`. -/
def poolQuit (_inst : TranslationServicePool) (cs : PoolClassState) : List TService :=
  cs.services

/-- Pool operations an arbitrary caller may interleave after a claim. -/
inductive PoolOp where
  | claimOp (inst : TranslationServicePool) (sid : Nat)
  | stashOp (inst : TranslationServicePool) (s : TService)

/-- One step of pool usage. -/
def runOp (cs : PoolClassState) : PoolOp → PoolClassState
  | .claimOp inst sid => (poolClaim inst cs sid).2
  | .stashOp inst s => poolStash inst cs s

/-- A sequence of pool-usage steps. -/
def runOps (cs : PoolClassState) (ops : List PoolOp) : PoolClassState :=
  ops.foldl runOp cs

/-! ### Concrete fixtures used by witnesses and counterexamples -/

/-- A UI in which every selector is present. -/
def uiAll : UI := fun _ => true

/-- A UI in which every selector except the `en-US` dialect option is present. -/
def uiNoUS : UI := fun s =>
  if s = Selector.langOptionVariant "en" "US" then false else true

/-- A session whose catalog is `{de, en}` with current pair `(de, en)`. -/
def stDE : DeepLState := ⟨["de", "en"], "de", "en"⟩

/-- A session whose catalog is `{de, en, fr}` with current pair `(de, fr)`. -/
def stFR : DeepLState := ⟨["de", "en", "fr"], "de", "fr"⟩

/-- A target textarea that stays empty forever (no translation appears). -/
def traceConst : Trace := fun _ => ""

/-- A target textarea that still shows the submitted text `"Hello"` at step 0
and a finished translation from step 1 on. -/
def traceW : Trace := fun t => if t ≤ 0 then "Hello" else "Bonjour."

/-- Pool-instance fixture. -/
def instW : TranslationServicePool := ⟨1, 2, 30, true⟩

/-- A second, differently configured pool-instance fixture. -/
def instV : TranslationServicePool := ⟨3, 4, 10, false⟩

/-- The empty shared pool state. -/
def csEmpty : PoolClassState := ⟨[], []⟩

/-- A session `translate` that always raises `TimeoutException`. -/
def behFail : TService → Except PyErr String := fun _ => .error .timeoutException

/-! ### Helper lemmas -/

/-- A successful bounded poll returns a step at or after its start, at which
the polled predicate holds. -/
theorem waitUntilAux_some (p : String → Bool) (trace : Trace) :
    ∀ fuel start t, waitUntilAux p trace start fuel = some t →
      start ≤ t ∧ p (trace t) = true := by
  intro fuel
  induction fuel with
  | zero => intro start t h; simp [waitUntilAux] at h
  | succ n ih =>
    intro start t h
    unfold waitUntilAux at h
    by_cases hp : p (trace start) = true
    · rw [if_pos hp] at h
      cases h
      exact ⟨Nat.le_refl _, hp⟩
    · rw [if_neg hp] at h
      have := ih (start + 1) t h
      exact ⟨Nat.le_trans (Nat.le_succ _) this.1, this.2⟩

/-- Specialization of `waitUntilAux_some` to `waitUntil`. -/
theorem waitUntil_some (p : String → Bool) (trace : Trace) (start timeout t : Nat)
    (h : waitUntil p trace start timeout = some t) :
    start ≤ t ∧ p (trace t) = true :=
  waitUntilAux_some p trace (timeout + 1) start t h

/-! ### Claim theorems -/

/-- C1: with current pair `(de, en)`, `set_pair("en", "de")` -- the exact
reverse -- does NOT take the single-click swap path: `_set_languages` compares
both arguments against `_current_src_lang`, so the reversed pair goes through
the sequential `_set_source_language`; `_set_target_language` path, performing
four clicks (two selection actions) instead of the one swap click, and passing
through the intermediate state where source and target are both `en`. -/
theorem setLanguages_reversedPair_takes_sequential_path :
    setLanguages uiAll stDE (some "en") (some "de") =
      ⟨[.click .srcLangListBtn, .click (.langOption "en"), .click .tgtLangListBtn,
        .click (.langOptionVariant "de" "DE")], ⟨["de", "en"], "en", "de"⟩, none⟩
    ∧ (setLanguages uiAll stDE (some "en") (some "de")).log
        ≠ [.click .switchLangDiv] := by
  refine ⟨by decide, by decide⟩

/-- C7: `_set_target_language` on a language id absent from the catalog raises
`ValueError("Target language not supported!")` with no UI action performed and
the session state unchanged. -/
theorem setTarget_unsupported_raises_without_ui (ui : UI) (st : DeepLState)
    (x : Option Lang) (h : is_language_supported st x = false) :
    setTargetLanguage ui st x = ⟨[], st, some .badTargetLanguage⟩ := by
  simp [setTargetLanguage, h]

/-- Witness for C7: the id `"xx"` is not in `stDE`'s catalog. -/
theorem setTarget_unsupported_raises_without_ui_witness :
    setTargetLanguage uiAll stDE (some "xx") = ⟨[], stDE, some .badTargetLanguage⟩ :=
  setTarget_unsupported_raises_without_ui uiAll stDE (some "xx") (by decide)

/-- C8: `translate` on a text of length ≤ 1 returns the text unchanged,
performs no action on the automation handle, and leaves the session state
untouched, whatever the language arguments. -/
theorem translate_short_text_is_identity (ui : UI) (trace : Trace)
    (timeout t0 : Nat) (st : DeepLState) (text : String) (src tgt : Option Lang)
    (h : text.length ≤ 1) :
    translate ui trace timeout t0 st text src tgt = ⟨[], st, .ok text⟩ := by
  simp [translate, h]

/-- Witness for C8: a one-character text with unsupported (even absent)
languages is returned unchanged with an empty action log. -/
theorem translate_short_text_is_identity_witness :
    translate uiAll traceConst 3 0 stDE "a" none none = ⟨[], stDE, .ok "a"⟩ :=
  translate_short_text_is_identity uiAll traceConst 3 0 stDE "a" none none (by decide)

/-- When `_set_languages` raises before performing any action, `translate` on
a long-enough text propagates that error without touching the handle. -/
theorem translate_of_setLanguages_err (ui : UI) (trace : Trace) (timeout t0 : Nat)
    (st : DeepLState) (text : String) (src tgt : Option Lang) (e : PyErr)
    (hlen : ¬ text.length ≤ 1)
    (h : setLanguages ui st src tgt = ⟨[], st, some e⟩) :
    translate ui trace timeout t0 st text src tgt = ⟨[], st, .error e⟩ := by
  simp [translate, hlen, h]

/-- C10: on any text of length > 1, omitting the source or target language
(passing `None`) makes `translate` raise a validation `ValueError` before any
action on the handle -- in particular before the text is submitted -- leaving
the session state unchanged, because `is_language_supported(None)` is false. -/
theorem translate_none_language_raises_validation (ui : UI) (trace : Trace)
    (timeout t0 : Nat) (st : DeepLState) (text : String) (src tgt : Option Lang)
    (hlen : 1 < text.length) (h : src = none ∨ tgt = none) :
    (translate ui trace timeout t0 st text src tgt).log = []
    ∧ (translate ui trace timeout t0 st text src tgt).st = st
    ∧ ((translate ui trace timeout t0 st text src tgt).result
          = .error .badSourceLanguage
        ∨ (translate ui trace timeout t0 st text src tgt).result
          = .error .badTargetLanguage) := by
  have hlen' : ¬ text.length ≤ 1 := by omega
  rcases h with hsrc | htgt
  · have hset : setLanguages ui st src tgt = ⟨[], st, some .badSourceLanguage⟩ := by
      simp [setLanguages, hsrc, is_language_supported]
    rw [translate_of_setLanguages_err ui trace timeout t0 st text src tgt _ hlen' hset]
    exact ⟨rfl, rfl, Or.inl rfl⟩
  · by_cases hs : is_language_supported st src = true
    · have hset : setLanguages ui st src tgt = ⟨[], st, some .badTargetLanguage⟩ := by
        subst htgt
        have h2 : is_language_supported st none = false := rfl
        simp [setLanguages, hs, h2]
      rw [translate_of_setLanguages_err ui trace timeout t0 st text src tgt _ hlen' hset]
      exact ⟨rfl, rfl, Or.inr rfl⟩
    · have hset : setLanguages ui st src tgt = ⟨[], st, some .badSourceLanguage⟩ := by
        simp only [Bool.not_eq_true] at hs
        simp [setLanguages, hs]
      rw [translate_of_setLanguages_err ui trace timeout t0 st text src tgt _ hlen' hset]
      exact ⟨rfl, rfl, Or.inl rfl⟩

/-- Witness for C10: target omitted on a session whose catalog holds `de`. -/
theorem translate_none_language_raises_validation_witness :
    (translate uiAll traceConst 3 0 stDE "Hello" (some "de") none).log = []
    ∧ (translate uiAll traceConst 3 0 stDE "Hello" (some "de") none).st = stDE
    ∧ ((translate uiAll traceConst 3 0 stDE "Hello" (some "de") none).result
          = .error .badSourceLanguage
        ∨ (translate uiAll traceConst 3 0 stDE "Hello" (some "de") none).result
          = .error .badTargetLanguage) :=
  translate_none_language_raises_validation uiAll traceConst 3 0 stDE "Hello"
    (some "de") none (by decide) (Or.inr rfl)

/-- C2 counterexample: with the pair already selected, the ready wait
exhausting its timeout makes `translate` return the empty string: the
`TimeoutException` is caught and is NOT propagated to the caller, and no
fallback parameter exists that could be returned instead. -/
theorem translate_timeout_swallowed_counterexample :
    readyTime traceConst 3 0 "Hello" = none
    ∧ (translate uiAll traceConst 3 0 stDE "Hello" (some "de") (some "en")).result
        = .ok ""
    ∧ ((Except.ok "" : Except PyErr String) ≠ .error .timeoutException) := by
  refine ⟨by decide, rfl, by simp⟩

/-- C2 (amended): whenever the ready wait inside `_get_translation` exhausts
its timeout, `translate` returns the empty string -- the caught
`TimeoutException` never reaches the caller, and there is no fallback
parameter in this variant. -/
theorem translate_timeout_returns_empty_string (ui : UI) (trace : Trace)
    (timeout t0 : Nat) (st : DeepLState) (text : String) (src tgt : Option Lang)
    (hlen : 1 < text.length)
    (hset : (setLanguages ui st src tgt).err = none)
    (hto : readyTime trace timeout t0 text = none) :
    (translate ui trace timeout t0 st text src tgt).result = .ok "" := by
  have hlen' : ¬ text.length ≤ 1 := by omega
  simp [translate, hlen', hset, hto]

/-- Witness for C2 (amended): concrete never-ready textarea. -/
theorem translate_timeout_returns_empty_string_witness :
    (translate uiAll traceConst 3 0 stDE "Hello" (some "de") (some "en")).result
      = .ok "" :=
  translate_timeout_returns_empty_string uiAll traceConst 3 0 stDE "Hello"
    (some "de") (some "en") (by decide) rfl (by decide)

/-- Python's `list.pop()` on a non-empty list returns a member of the list. -/
theorem getLastD_mem {α : Type} (l : List α) (d : α) (h : l ≠ []) :
    l.getLastD d ∈ l := by
  rw [List.getLastD_eq_getLast?, List.getLast?_eq_getLast_of_ne_nil h]
  exact List.getLast_mem h

/-- No pool operation ever removes a service from `__services`. -/
theorem runOp_services_mono (cs : PoolClassState) (op : PoolOp) :
    cs.services ⊆ (runOp cs op).services := by
  cases op with
  | claimOp inst sid =>
    simp only [runOp, poolClaim]
    by_cases hp : cs.pool.length ≤ 0
    · simp [hp, poolCreate]
    · simp [hp]
  | stashOp inst s => simp [runOp, poolStash]

/-- The list `__services` is monotone along any sequence of pool operations. -/
theorem runOps_services_mono (ops : List PoolOp) :
    ∀ cs : PoolClassState, cs.services ⊆ (runOps cs ops).services := by
  induction ops with
  | nil => intro cs; simp [runOps]
  | cons op ops ih =>
    intro cs
    exact List.Subset.trans (runOp_services_mono cs op) (ih (runOp cs op))

/-- A claimed service is recorded in `__services` the moment `claim` returns,
provided every available service was already recorded (the pool invariant). -/
theorem poolClaim_mem_services (inst : TranslationServicePool) (cs : PoolClassState)
    (sid : Nat) (h : cs.pool ⊆ cs.services) :
    (poolClaim inst cs sid).1 ∈ (poolClaim inst cs sid).2.services := by
  unfold poolClaim
  by_cases hp : cs.pool.length ≤ 0
  · have hnil : cs.pool = [] := List.length_eq_zero.mp (Nat.le_zero.mp hp)
    simp [hp, poolCreate, hnil]
  · have hne : cs.pool ≠ [] := by
      intro hnil; rw [hnil] at hp; exact hp (by simp)
    simp only [if_neg hp]
    exact h (getLastD_mem cs.pool default hne)

/-- C4: a service obtained from `claim` -- including one that is never
stashed back -- is among the services `quit()` tears down after any further
interleaving of pool operations, and `quit()` tears down exactly the members
of `__services` (the all-services list), not only the currently available
`__pool`. -/
theorem poolQuit_covers_claimed_service (inst : TranslationServicePool)
    (cs : PoolClassState) (sid : Nat) (ops : List PoolOp)
    (h : cs.pool ⊆ cs.services) :
    (poolClaim inst cs sid).1
      ∈ poolQuit inst (runOps (poolClaim inst cs sid).2 ops)
    ∧ poolQuit inst (runOps (poolClaim inst cs sid).2 ops)
      = (runOps (poolClaim inst cs sid).2 ops).services := by
  exact ⟨runOps_services_mono ops (poolClaim inst cs sid).2
    (poolClaim_mem_services inst cs sid h), rfl⟩

/-- Witness for C4: a freshly created claimed service survives a further
claim and stash by other callers and is still in the teardown list. -/
theorem poolQuit_covers_claimed_service_witness :
    (poolClaim instW csEmpty 7).1
      ∈ poolQuit instW (runOps (poolClaim instW csEmpty 7).2
          [.claimOp instV 9, .stashOp instV (createService instV 9)])
    ∧ poolQuit instW (runOps (poolClaim instW csEmpty 7).2
          [.claimOp instV 9, .stashOp instV (createService instV 9)])
      = (runOps (poolClaim instW csEmpty 7).2
          [.claimOp instV 9, .stashOp instV (createService instV 9)]).services :=
  poolQuit_covers_claimed_service instW csEmpty 7
    [.claimOp instV 9, .stashOp instV (createService instV 9)] (by simp [csEmpty])

/-- C3 counterexample: on a pool with one fresh service whose `translate`
raises, `TranslationServicePool.translate` propagates the exception while the
service is left OUT of the available `__pool` (it is abandoned in the claimed
state; only `__services` still records it). -/
theorem poolTranslate_abandons_on_error_counterexample :
    (poolTranslate instW behFail csEmpty 7).1 = .error .timeoutException
    ∧ (poolTranslate instW behFail csEmpty 7).2.pool = []
    ∧ (poolTranslate instW behFail csEmpty 7).2.services = [createService instW 7] :=
  ⟨rfl, rfl, rfl⟩

/-- C3 (amended): when the claimed service's `translate` raises, the exception
propagates and the shared state stays exactly as it was right after `claim`:
the service is NOT stashed back into the available pool. -/
theorem poolTranslate_error_skips_stash (inst : TranslationServicePool)
    (beh : TService → Except PyErr String) (cs : PoolClassState) (sid : Nat)
    (e : PyErr) (h : beh (poolClaim inst cs sid).1 = .error e) :
    poolTranslate inst beh cs sid = (.error e, (poolClaim inst cs sid).2) := by
  simp [poolTranslate, h]

/-- Witness for C3 (amended). -/
theorem poolTranslate_error_skips_stash_witness :
    poolTranslate instW behFail csEmpty 7
      = (.error .timeoutException, (poolClaim instW csEmpty 7).2) :=
  poolTranslate_error_skips_stash instW behFail csEmpty 7 .timeoutException rfl

/-- C9: `__pool` and `__services` are class-level state shared by every
`TranslationServicePool` instance: a service stashed through instance `a` is
the very one a claim through a different instance `b` receives (with the
shared state restored), and a service created through `b` is torn down by
`quit()` invoked on `a`. -/
theorem pool_state_shared_across_instances (a b : TranslationServicePool)
    (cs : PoolClassState) (s : TService) (sid : Nat) :
    poolClaim b (poolStash a cs s) sid = (s, cs)
    ∧ (cs.pool = [] → createService b sid ∈ poolQuit a (poolClaim b cs sid).2) := by
  constructor
  · simp [poolClaim, poolStash]
  · intro h
    simp [poolClaim, poolQuit, poolCreate, h]

/-- Witness for C9: two differently configured instances observing the same
shared state. -/
theorem pool_state_shared_across_instances_witness :
    poolClaim instV (poolStash instW csEmpty (createService instW 1)) 5
      = (createService instW 1, csEmpty)
    ∧ createService instV 5 ∈ poolQuit instW (poolClaim instV csEmpty 5).2 :=
  ⟨(pool_state_shared_across_instances instW instV csEmpty (createService instW 1) 5).1,
    (pool_state_shared_across_instances instW instV csEmpty (createService instW 1) 5).2 rfl⟩

/-- C5: when the submitted text is still in the target textarea at the start
of `_get_translation`, any accepted result is read at a step `t2` that lies at
or after a stale-clearance step `t1 ≥ t0` at which the submitted text had left
the textarea, and the ready wait runs only from `t1` on -- the stale
pre-submission content is never accepted as the finished translation. When
the submitted text is not in the textarea at the start, the stale-clearance
wait is skipped and clearance is `t0` itself. -/
theorem getTranslation_waits_for_stale_clearance (trace : Trace)
    (timeout t0 : Nat) (from_text : String) :
    (containsSubstr (trace t0) from_text = true →
      ∀ t2, readyTime trace timeout t0 from_text = some t2 →
        ∃ t1, t0 ≤ t1 ∧ t1 ≤ t2 ∧ containsSubstr (trace t1) from_text = false ∧
          waitUntil (fun v => TextNotPresentAndLongerThan PLACEHOLDER 2 v) trace t1 timeout
            = some t2)
    ∧ (containsSubstr (trace t0) from_text = false →
        staleClearTime trace timeout t0 from_text = some t0) := by
  constructor
  · intro hc t2 hr
    unfold readyTime staleClearTime at hr
    rw [if_pos hc] at hr
    cases hw : waitUntil (fun v => TextNotPresent from_text v) trace t0 timeout with
    | none => rw [hw] at hr; exact absurd hr (by simp)
    | some t1 =>
      rw [hw] at hr
      have h1 := waitUntil_some _ trace t0 timeout t1 hw
      have h2 := waitUntil_some _ trace t1 timeout t2 hr
      refine ⟨t1, h1.1, h2.1, ?_, hr⟩
      have := h1.2
      simpa [TextNotPresent] using this
  · intro hc
    unfold staleClearTime
    rw [if_neg (by simp [hc])]

/-- Witness for C5: textarea still shows `"Hello"` at step 0 and a
translation from step 1 on; the result is read at step 1, after clearance at
step 1; and from a start where `"Hello"` is absent the stale wait is skipped. -/
theorem getTranslation_waits_for_stale_clearance_witness :
    (∃ t1, 0 ≤ t1 ∧ t1 ≤ 1 ∧ containsSubstr (traceW t1) "Hello" = false ∧
      waitUntil (fun v => TextNotPresentAndLongerThan PLACEHOLDER 2 v) traceW t1 5
        = some 1)
    ∧ staleClearTime traceW 5 1 "Hello" = some 1 :=
  ⟨(getTranslation_waits_for_stale_clearance traceW 5 0 "Hello").1 (by decide) 1
      (by decide),
    (getTranslation_waits_for_stale_clearance traceW 5 1 "Hello").2 (by decide)⟩

/-- C6: setting the target language `en` (supported, different from both
current languages, list button present) first attempts the `en-US` dialect
option; if that option is absent it falls back exactly once, to `en-EN`; if
that is absent too, the `TimeoutException` propagates -- there is no third
attempt -- and for every language other than `en` a missing option raises
immediately with no fallback at all. -/
theorem setTarget_dialect_fallback (ui : UI) (st : DeepLState)
    (h1 : is_language_supported st (some "en") = true)
    (h2 : st.currentTgtLang ≠ "en")
    (h3 : st.currentSrcLang ≠ "en")
    (h4 : ui .tgtLangListBtn = true) :
    (ui (.langOptionVariant "en" "US") = true →
      setTargetLanguage ui st (some "en")
        = ⟨[.click .tgtLangListBtn, .click (.langOptionVariant "en" "US")],
            { st with currentTgtLang := "en" }, none⟩)
    ∧ (ui (.langOptionVariant "en" "US") = false →
        ui (.langOptionVariant "en" "EN") = true →
        setTargetLanguage ui st (some "en")
          = ⟨[.click .tgtLangListBtn, .click (.langOptionVariant "en" "EN")],
              { st with currentTgtLang := "en" }, none⟩)
    ∧ (ui (.langOptionVariant "en" "US") = false →
        ui (.langOptionVariant "en" "EN") = false →
        setTargetLanguage ui st (some "en")
          = ⟨[.click .tgtLangListBtn], st, some .timeoutException⟩)
    ∧ (∀ l : Lang, l ≠ "en" → is_language_supported st (some l) = true →
        l ≠ st.currentTgtLang → l ≠ st.currentSrcLang →
        ui (.langOptionVariant (pyLower l) (pyUpper l)) = false →
        setTargetLanguage ui st (some l)
          = ⟨[.click .tgtLangListBtn], st, some .timeoutException⟩) := by
  have eL : pyLower "en" = "en" := by decide
  have eU : pyUpper "en" = "EN" := by decide
  refine ⟨?_, ?_, ?_, ?_⟩
  · intro hUS
    simp [setTargetLanguage, h1, h4, Ne.symm h2, Ne.symm h3, eL, eU, hUS]
  · intro hUS hEN
    simp [setTargetLanguage, h1, h4, Ne.symm h2, Ne.symm h3, eL, eU, hUS, hEN]
  · intro hUS hEN
    simp [setTargetLanguage, h1, h4, Ne.symm h2, Ne.symm h3, eL, eU, hUS, hEN]
  · intro l hl hsup hlt hls hui
    simp [setTargetLanguage, hsup, h4, hl, hlt, hls, hui]

/-- Witness for C6: with the `en-US` option absent and `en-EN` present, the
target selection falls back to the `en-EN` click. -/
theorem setTarget_dialect_fallback_witness :
    setTargetLanguage uiNoUS stFR (some "en")
      = ⟨[.click .tgtLangListBtn, .click (.langOptionVariant "en" "EN")],
          { stFR with currentTgtLang := "en" }, none⟩ :=
  (setTarget_dialect_fallback uiNoUS stFR (by decide) (by decide) (by decide)
      (by decide)).2.1 (by decide) (by decide)

end PyWebTranslator
